import Mathlib

/-!
Shallow embedding of `mnist_mlp_eager.py`: an MNIST multilayer-perceptron
training/inference script written against TensorFlow 2 in eager mode.

Numbers are modelled as rationals.  The external numerical library's
transcendental primitives (the exponential used by softmax, the reciprocal
square root used by batch normalization, the logarithm used by the
cross-entropy loss) and the gradient/optimizer step are taken as explicit
function parameters: every theorem below holds for an arbitrary choice of
these primitives, so nothing depends on their numeric values.  The stream of
random draws consumed by the dropout layer is modelled explicitly as a
`List Bool` that is threaded through every forward call.
-/

/-- Source constant `BATCH_SIZE = 32`. -/
def BATCH_SIZE : ℕ := 32

/-- Source constant `NUM_CLASS = 10`. -/
def NUM_CLASS : ℕ := 10

/-- Source constant `NUM_EPOCHS = 5`. -/
def NUM_EPOCHS : ℕ := 5

/-- Source constant `LEARNING_RATE = 1e-3`. -/
def LEARNING_RATE : ℚ := 1/1000

/-- Source constant `MODEL_FILE = 'models/mnist_mlp_eager/model'`. -/
def MODEL_FILE : String := "models/mnist_mlp_eager/model"

/-- A feature vector (one row of a batch). -/
abbrev Vec := List ℚ

/-- Pointwise sum of two feature vectors. -/
def vAdd (a b : Vec) : Vec := List.zipWith (· + ·) a b

/-- Pointwise difference of two feature vectors. -/
def vSub (a b : Vec) : Vec := List.zipWith (· - ·) a b

/-- Pointwise (Hadamard) product of two feature vectors. -/
def vMul (a b : Vec) : Vec := List.zipWith (· * ·) a b

/-- Scale a feature vector by a constant. -/
def vScale (c : ℚ) (a : Vec) : Vec := a.map (fun v => c * v)

/-- Dot product of two vectors. -/
def dot (a b : Vec) : ℚ := (List.zipWith (· * ·) a b).sum

/-- Parameters of a `keras.layers.Dense` layer: a weight row per output unit
and a bias per output unit. -/
structure DenseParams where
  w : List Vec
  b : Vec
deriving DecidableEq, Repr

/-- Forward pass of a `Dense` layer on one input vector: affine map. -/
def denseApply (p : DenseParams) (x : Vec) : Vec :=
  List.zipWith (fun row bi => dot row x + bi) p.w p.b

/-- Forward pass of `keras.layers.Activation('relu')` on one vector. -/
def reluVec (x : Vec) : Vec := x.map (fun v => max v 0)

/-- Parameters and running statistics of a `keras.layers.BatchNormalization`
layer (learnable scale `gamma` and shift `beta`, accumulated running mean and
variance used in inference mode). -/
structure BNParams where
  gamma : Vec
  beta : Vec
  movingMean : Vec
  movingVar : Vec
deriving DecidableEq, Repr

/-- Keras default batch-normalization epsilon (0.001). -/
def bnEps : ℚ := 1/1000

/-- Keras default batch-normalization momentum (0.99) for the running
statistics update. -/
def bnMomentum : ℚ := 99/100

/-- Normalize one vector with the given per-feature mean and variance, then
apply the learnable scale and shift.  `rsqrt` is the external library's
reciprocal square root. -/
def bnNormalize (rsqrt : ℚ → ℚ) (mean variance : Vec) (p : BNParams) (x : Vec) : Vec :=
  vAdd (vMul p.gamma (vMul (vSub x mean) (variance.map (fun v => rsqrt (v + bnEps))))) p.beta

/-- Per-feature mean of a batch of vectors. -/
def featureMean (batch : List Vec) : Vec :=
  match batch with
  | [] => []
  | v :: vs => vScale (1 / (vs.length + 1 : ℚ)) (vs.foldl vAdd v)

/-- Per-feature (biased) variance of a batch of vectors. -/
def featureVar (batch : List Vec) : Vec :=
  let μ := featureMean batch
  let sq := batch.map (fun v => vMul (vSub v μ) (vSub v μ))
  match sq with
  | [] => []
  | v :: vs => vScale (1 / (vs.length + 1 : ℚ)) (vs.foldl vAdd v)

/-- Batch-normalization forward pass in training mode: statistics are computed
from the current batch, and the running statistics are updated as a side
effect (returned as the new layer state). -/
def bnTrainForward (rsqrt : ℚ → ℚ) (p : BNParams) (batch : List Vec) :
    List Vec × BNParams :=
  let μ := featureMean batch
  let σ2 := featureVar batch
  (batch.map (bnNormalize rsqrt μ σ2 p),
   { p with
     movingMean := vAdd (vScale bnMomentum p.movingMean) (vScale (1 - bnMomentum) μ),
     movingVar := vAdd (vScale bnMomentum p.movingVar) (vScale (1 - bnMomentum) σ2) })

/-- Batch-normalization forward pass in inference mode: the accumulated
running statistics are used and the layer state is untouched. -/
def bnInferForward (rsqrt : ℚ → ℚ) (p : BNParams) (batch : List Vec) : List Vec :=
  batch.map (bnNormalize rsqrt p.movingMean p.movingVar p)

/-- Source `keras.layers.Dropout(rate=.1)` rate. -/
def dropoutRate : ℚ := 1/10

/-- Dropout on one vector in training mode: each unit consumes one random
draw; a dropped unit becomes 0, a kept unit is rescaled by 1/(1-rate). -/
def dropoutVec : List Bool → Vec → Vec × List Bool
  | rng, [] => ([], rng)
  | rng, v :: vs =>
    let rest := dropoutVec rng.tail vs
    ((if rng.headI then 0 else v / (1 - dropoutRate)) :: rest.1, rest.2)

/-- Dropout over a batch of vectors, threading the random stream. -/
def dropoutBatch (rng : List Bool) : List Vec → List Vec × List Bool
  | [] => ([], rng)
  | x :: xs =>
    let y := dropoutVec rng x
    let ys := dropoutBatch y.2 xs
    (y.1 :: ys.1, ys.2)

/-- Forward pass of `keras.layers.Activation('softmax')` on one vector, given
the external exponential. -/
def softmaxVec (exp : ℚ → ℚ) (x : Vec) : Vec :=
  let e := x.map exp
  e.map (fun v => v / e.sum)

/-- All learnable parameters and running statistics of the `MLP` model:
encoder `Dense(128) → BatchNormalization → relu → Dense(32) →
BatchNormalization → relu`, decoder `Dense(num_class) → Dropout(0.1) →
softmax`. -/
structure MLPParams where
  dense1 : DenseParams
  bn1 : BNParams
  dense2 : DenseParams
  bn2 : BNParams
  dense3 : DenseParams
deriving DecidableEq, Repr

/-- Forward pass of `self.encoder(x, training=training)`: two
affine/normalize/relu blocks.  Returns the batch of outputs and the model
state with possibly-updated running statistics. -/
def encoderForward (rsqrt : ℚ → ℚ) (p : MLPParams) (batch : List Vec)
    (training : Bool) : List Vec × MLPParams :=
  let h1 := batch.map (denseApply p.dense1)
  let r1 := if training then bnTrainForward rsqrt p.bn1 h1
            else (bnInferForward rsqrt p.bn1 h1, p.bn1)
  let h2 := r1.1.map reluVec
  let h3 := h2.map (denseApply p.dense2)
  let r2 := if training then bnTrainForward rsqrt p.bn2 h3
            else (bnInferForward rsqrt p.bn2 h3, p.bn2)
  let h4 := r2.1.map reluVec
  (h4, { p with bn1 := r1.2, bn2 := r2.2 })

/-- Forward pass of `self.decoder(x, training=training)`: affine layer,
dropout (active only in training mode), softmax.  Returns the batch of
per-class probability vectors and the remaining random stream. -/
def decoderForward (exp : ℚ → ℚ) (p : MLPParams) (rng : List Bool)
    (batch : List Vec) (training : Bool) : List Vec × List Bool :=
  let h1 := batch.map (denseApply p.dense3)
  let r := if training then dropoutBatch rng h1 else (h1, rng)
  (r.1.map (softmaxVec exp), r.2)

/-- `MLP.call(self, x, training=True)`: encoder then decoder, with the mode
flag defaulting to training mode exactly as in the source.  Returns the
output batch, the updated model state and the remaining random stream. -/
def MLP.call (exp rsqrt : ℚ → ℚ) (p : MLPParams) (rng : List Bool)
    (x : List Vec) (training : Bool := true) :
    List Vec × MLPParams × List Bool :=
  let e := encoderForward rsqrt p x training
  let d := decoderForward exp e.2 rng e.1 training
  (d.1, e.2, d.2)

/-- Index of the first maximal entry of a vector (numpy `argmax`), via an
accumulator carrying the current index, best index and best value. -/
def argmaxAux : ℕ → ℕ → ℚ → Vec → ℕ
  | _, bi, _, [] => bi
  | i, bi, bv, v :: vs =>
    if bv < v then argmaxAux (i + 1) i v vs else argmaxAux (i + 1) bi bv vs

/-- numpy `argmax` over a flat vector (0 on the empty vector). -/
def argmaxIdx : Vec → ℕ
  | [] => 0
  | v :: vs => argmaxAux 1 0 v vs

/-- numpy `max` over a flat vector (0 on the empty vector). -/
def maxVal : Vec → ℚ
  | [] => 0
  | v :: vs => vs.foldl max v

/-- State of `keras.metrics.Mean`: running total and sample count. -/
structure MeanMetric where
  total : ℚ
  count : ℕ
deriving DecidableEq, Repr

/-- `Mean.reset_states()`: back to the identity (zero total, zero count). -/
def MeanMetric.resetStates : MeanMetric := ⟨0, 0⟩

/-- `Mean.__call__(v)`: accumulate one value. -/
def MeanMetric.update (m : MeanMetric) (v : ℚ) : MeanMetric :=
  ⟨m.total + v, m.count + 1⟩

/-- `Mean.result()`: the running mean. -/
def MeanMetric.result (m : MeanMetric) : ℚ := m.total / m.count

/-- State of `keras.metrics.SparseCategoricalAccuracy`: number of correct
predictions and number of samples seen. -/
structure AccuracyMetric where
  correct : ℕ
  count : ℕ
deriving DecidableEq, Repr

/-- `SparseCategoricalAccuracy.reset_states()`: back to the identity. -/
def AccuracyMetric.resetStates : AccuracyMetric := ⟨0, 0⟩

/-- `SparseCategoricalAccuracy.__call__(y, out)`: count predictions whose
argmax equals the integer label. -/
def AccuracyMetric.update (m : AccuracyMetric) (labels : List ℕ)
    (preds : List Vec) : AccuracyMetric :=
  ⟨m.correct + (List.zipWith (fun y out => if argmaxIdx out = y then 1 else 0) labels preds).sum,
   m.count + labels.length⟩

/-- `SparseCategoricalAccuracy.result()`: the fraction correct. -/
def AccuracyMetric.result (m : AccuracyMetric) : ℚ := (m.correct : ℚ) / m.count

/-- `keras.losses.SparseCategoricalCrossentropy` on one batch: mean over the
batch of the negative log-probability assigned to the true label.  `log` is
the external library's logarithm. -/
def criterion (log : ℚ → ℚ) (labels : List ℕ) (preds : List Vec) : ℚ :=
  let losses := List.zipWith (fun y out => -(log (out.getD y 0))) labels preds
  losses.sum / losses.length

/-- `tf.data.Dataset.batch(k)`: group a list into consecutive chunks of `k`
elements in original order (the final chunk may be shorter). -/
def batchList (k : ℕ) : List α → List (List α)
  | [] => []
  | x :: xs => (x :: xs.take (k - 1)) :: batchList k (xs.drop (k - 1))
termination_by l => l.length
decreasing_by
  simp only [List.length_drop, List.length_cons]
  omega

/-- One mini-batch: the stacked input vectors and the integer labels. -/
abbrev Batch := List Vec × List ℕ

/-- `tf.data.Dataset.from_tensor_slices((x, y)).batch(BATCH_SIZE)`: pair the
inputs with the labels, chunk into batches, and present each chunk as a pair
of stacked arrays. -/
def makeDataset (x : List Vec) (y : List ℕ) : List Batch :=
  (batchList BATCH_SIZE (x.zip y)).map (fun chunk => chunk.unzip)

/-- The mutable state threaded through the training loop: the model (its
parameters and running statistics), the random stream, and the four metric
accumulators declared in `train`. -/
structure TrainState where
  params : MLPParams
  rng : List Bool
  train_loss : MeanMetric
  train_accuracy : AccuracyMetric
  test_loss : MeanMetric
  test_accuracy : AccuracyMetric
deriving DecidableEq, Repr

/-- One iteration of the train-phase loop body: forward pass in training
mode, loss, gradient + Adam update (modelled by the abstract `optStep`,
standing for `tape.gradient` followed by `optimizer.apply_gradients`), then
metric accumulation. -/
def trainBatchStep (exp rsqrt log : ℚ → ℚ)
    (optStep : MLPParams → ℚ → MLPParams) (s : TrainState) (b : Batch) :
    TrainState :=
  let r := MLP.call exp rsqrt s.params s.rng b.1 true
  let loss := criterion log b.2 r.1
  { s with
    params := optStep r.2.1 loss,
    rng := r.2.2,
    train_loss := s.train_loss.update loss,
    train_accuracy := s.train_accuracy.update b.2 r.1 }

/-- One iteration of the validation-phase loop body: forward pass in
inference mode, loss, metric accumulation — no optimizer step. -/
def validBatchStep (exp rsqrt log : ℚ → ℚ) (s : TrainState) (b : Batch) :
    TrainState :=
  let r := MLP.call exp rsqrt s.params s.rng b.1 false
  let loss := criterion log b.2 r.1
  { s with
    params := r.2.1,
    rng := r.2.2,
    test_loss := s.test_loss.update loss,
    test_accuracy := s.test_accuracy.update b.2 r.1 }

/-- One epoch of the training loop: reset the train metrics, fold the
train-phase body over the training batches, reset the validation metrics,
fold the validation-phase body over the validation batches. -/
def epochStep (exp rsqrt log : ℚ → ℚ) (optStep : MLPParams → ℚ → MLPParams)
    (trainDs validDs : List Batch) (s : TrainState) : TrainState :=
  let s1 := { s with train_loss := MeanMetric.resetStates,
                     train_accuracy := AccuracyMetric.resetStates }
  let s2 := trainDs.foldl (trainBatchStep exp rsqrt log optStep) s1
  let s3 := { s2 with test_loss := MeanMetric.resetStates,
                      test_accuracy := AccuracyMetric.resetStates }
  validDs.foldl (validBatchStep exp rsqrt log) s3

/-- The visible file system: saved checkpoints (path to saved model state),
the set of existing file paths, and decodable grayscale image files (path to
raster-order pixel values). -/
structure FS where
  checkpoints : List (String × MLPParams)
  files : List String
  images : List (String × List ℕ)

/-- `os.path.exists`. -/
def FS.pathExists (fs : FS) (p : String) : Bool := fs.files.contains p

/-- `model.save_weights(path, save_format='tf')`: record the model state
under `path` (shadowing any prior checkpoint there) and create the
checkpoint index file `path + '.index'`. -/
def save_weights (fs : FS) (path : String) (p : MLPParams) : FS :=
  { fs with
    checkpoints := (path, p) :: fs.checkpoints,
    files := (path ++ ".index") :: fs.files }

/-- `model.load_weights(path)`: look up the most recently saved checkpoint
at `path`; fails when none exists. -/
def load_weights (fs : FS) (path : String) : Option MLPParams :=
  (fs.checkpoints.find? (fun e => e.1 == path)).map (fun e => e.2)

/-- `cv2.imread(filepath, 0)`: the decoded grayscale pixels, or `none` when
the file cannot be read. -/
def imread (fs : FS) (path : String) : Option (List ℕ) :=
  (fs.images.find? (fun e => e.1 == path)).map (fun e => e.2)

/-- numpy `reshape(rows, cols)` on a flat array: succeeds exactly when the
element count matches, yielding the rows in original order. -/
def reshape2d (rows cols : ℕ) (flat : List α) : Option (List (List α)) :=
  if flat.length = rows * cols then some (batchList cols flat) else none

/-- Scale one raw pixel (integer range 0 to 255) into the unit interval:
`astype('float32') / 255`. -/
def pixelScale (v : ℕ) : ℚ := (v : ℚ) / 255

/-- The training-path preprocessing
`x_train.reshape(60000, 784).astype('float32') / 255.0`: flatten each raw
28 by 28 raster image into one row and scale every pixel once. -/
def trainPreprocess (raw : List (List (List ℕ))) : List Vec :=
  raw.map (fun img => img.flatten.map pixelScale)

/-- The inference-path preprocessing
`cv2.imread(filepath, 0).reshape(1, 784).astype('float32') / 255`: reshape
the decoded flat pixel buffer into one 784-wide row and scale every pixel
once.  `none` when the pixel count does not match the reshape target. -/
def inferPreprocess (pixels : List ℕ) : Option (List Vec) :=
  (reshape2d 1 784 pixels).map (fun m => m.map (fun row => row.map pixelScale))

/-- `train(verbose)`: load the dataset (the raw images and labels are
arguments, the loading itself being external), preprocess, batch, run
`NUM_EPOCHS` epochs, then persist the final model state with
`model.save_weights(MODEL_FILE)`.  `init` is the freshly initialized model
`MLP()` and `rng0` the initial random stream.  Returns the updated file
system and final loop state. -/
def train (exp rsqrt log : ℚ → ℚ) (optStep : MLPParams → ℚ → MLPParams)
    (init : MLPParams) (rng0 : List Bool)
    (xTrainRaw : List (List (List ℕ))) (yTrain : List ℕ)
    (xValidRaw : List (List (List ℕ))) (yValid : List ℕ)
    (fs : FS) : FS × TrainState :=
  let train_dataset := makeDataset (trainPreprocess xTrainRaw) yTrain
  let valid_dataset := makeDataset (trainPreprocess xValidRaw) yValid
  let s0 : TrainState :=
    ⟨init, rng0, MeanMetric.resetStates, AccuracyMetric.resetStates,
     MeanMetric.resetStates, AccuracyMetric.resetStates⟩
  let sF := (List.range NUM_EPOCHS).foldl
    (fun s _ => epochStep exp rsqrt log optStep train_dataset valid_dataset s) s0
  (save_weights fs MODEL_FILE sF.params, sF)

/-- `inference(filepath)`: reconstruct the model (`init` is the fresh
`MLP()`), load the persisted weights over it, read and preprocess the image,
run one forward pass in inference mode (`model.predict`), and report the
argmax class with its probability.  Each failing step is surfaced as an
error. -/
def inference (exp rsqrt : ℚ → ℚ) (init : MLPParams) (rng : List Bool)
    (fs : FS) (filepath : String) : Except String (ℕ × ℚ) :=
  match load_weights fs MODEL_FILE with
  | none => .error "load_weights: checkpoint not found"
  | some p =>
    match imread fs filepath with
    | none => .error "imread: cannot read image"
    | some pixels =>
      match inferPreprocess pixels with
      | none => .error "reshape: size mismatch"
      | some image =>
        let probs := (MLP.call exp rsqrt p rng image false).1
        .ok (argmaxIdx probs.flatten, maxVal probs.flatten)

/-- The `procedure` positional CLI argument (argparse restricts it to these
two choices). -/
inductive Procedure where
  | train
  | inference
deriving DecidableEq, Repr

/-- The parsed CLI arguments (`--image_path` defaults to `None`). -/
structure Args where
  procedure : Procedure
  image_path : Option String
  gpu : String
  verbose : ℤ
deriving Repr

/-- Observable outcome of the `__main__` block. -/
inductive MainOutcome where
  | ranTrain (result : FS × TrainState)
  | ranInference (result : Except String (ℕ × ℚ))
  | assertionError (msg : String)
  | typeError (msg : String)

/-- The `__main__` block: on `train`, run training; on `inference`, first
assert that the checkpoint index file exists, then test the image path
(`os.path.exists(None)` raises `TypeError` when `--image_path` was omitted),
and only then run the forward pass. -/
def mainRun (exp rsqrt log : ℚ → ℚ) (optStep : MLPParams → ℚ → MLPParams)
    (init : MLPParams) (rng : List Bool)
    (xTrainRaw : List (List (List ℕ))) (yTrain : List ℕ)
    (xValidRaw : List (List (List ℕ))) (yValid : List ℕ)
    (fs : FS) (args : Args) : MainOutcome :=
  match args.procedure with
  | .train =>
    .ranTrain (train exp rsqrt log optStep init rng xTrainRaw yTrain xValidRaw yValid fs)
  | .inference =>
    if FS.pathExists fs (MODEL_FILE ++ ".index") then
      match args.image_path with
      | none =>
        .typeError "stat: path should be string, bytes, os.PathLike or integer, not NoneType"
      | some ip =>
        if FS.pathExists fs ip then
          .ranInference (inference exp rsqrt init rng fs ip)
        else .assertionError "can not find image file."
    else .assertionError "model not found, train a model before calling inference."

/-- In inference mode the forward pass ignores the random stream, returns
the model state unchanged, and passes the random stream through untouched. -/
theorem call_false_pure (exp rsqrt : ℚ → ℚ) (p : MLPParams) (g g' : List Bool)
    (x : List Vec) :
    (MLP.call exp rsqrt p g x false).1 = (MLP.call exp rsqrt p g' x false).1 ∧
    (MLP.call exp rsqrt p g x false).2.1 = p ∧
    (MLP.call exp rsqrt p g x false).2.2 = g :=
  ⟨rfl, rfl, rfl⟩

/-- Claim C1: for a fixed file system (fixed image file and fixed persisted
parameters), the inference operation is a pure function — its result does
not depend on the freshly initialized weights it overwrites nor on the
random stream, so invoking it twice with the same image and the same loaded
parameters returns the identical predicted class and confidence value. -/
theorem inference_deterministic (exp rsqrt : ℚ → ℚ) (init init' : MLPParams)
    (rng rng' : List Bool) (fs : FS) (filepath : String) :
    inference exp rsqrt init rng fs filepath =
      inference exp rsqrt init' rng' fs filepath := rfl

/-- Claim C2: when no persisted parameter file exists at the fixed checkpoint
path, inference mode fails the explicit precondition check with its
descriptive message and the forward pass is never run (the outcome is never
`ranInference`). -/
theorem inference_missing_checkpoint_aborts (exp rsqrt log : ℚ → ℚ)
    (optStep : MLPParams → ℚ → MLPParams) (init : MLPParams) (rng : List Bool)
    (xTrainRaw : List (List (List ℕ))) (yTrain : List ℕ)
    (xValidRaw : List (List (List ℕ))) (yValid : List ℕ)
    (fs : FS) (ip : Option String) (gpu : String) (vb : ℤ)
    (h : FS.pathExists fs (MODEL_FILE ++ ".index") = false) :
    mainRun exp rsqrt log optStep init rng xTrainRaw yTrain xValidRaw yValid fs
        ⟨Procedure.inference, ip, gpu, vb⟩ =
      MainOutcome.assertionError "model not found, train a model before calling inference." ∧
    ∀ res, mainRun exp rsqrt log optStep init rng xTrainRaw yTrain xValidRaw yValid fs
        ⟨Procedure.inference, ip, gpu, vb⟩ ≠ MainOutcome.ranInference res := by
  constructor
  · simp [mainRun, h]
  · intro res
    simp [mainRun, h]

/-- A concrete empty file system. -/
def fsEmpty : FS := ⟨[], [], []⟩

/-- A concrete model state with one unit per layer, used to exercise the
definitions on closed inputs. -/
def demoParams : MLPParams :=
  ⟨⟨[[1]], [0]⟩, ⟨[1], [0], [0], [0]⟩, ⟨[[1]], [0]⟩, ⟨[1], [0], [0], [0]⟩, ⟨[[1]], [0]⟩⟩

theorem inference_missing_checkpoint_aborts_witness :
    FS.pathExists fsEmpty (MODEL_FILE ++ ".index") = false ∧
    (mainRun id id id (fun p _ => p) demoParams [] [] [] [] [] fsEmpty
        ⟨Procedure.inference, some "seven.png", "", 0⟩ =
      MainOutcome.assertionError "model not found, train a model before calling inference." ∧
    ∀ res, mainRun id id id (fun p _ => p) demoParams [] [] [] [] [] fsEmpty
        ⟨Procedure.inference, some "seven.png", "", 0⟩ ≠ MainOutcome.ranInference res) :=
  ⟨rfl, inference_missing_checkpoint_aborts id id id (fun p _ => p) demoParams [] [] [] [] []
    fsEmpty (some "seven.png") "" 0 rfl⟩

/-- Claim C10: the two inference-mode precondition checks run in a fixed
order — checkpoint existence first, then image path — and when the
checkpoint exists but `--image_path` was omitted (left at its default
`None`), the path-existence test itself raises `TypeError` instead of the
descriptive assertion message. -/
theorem precondition_order_and_typeerror (exp rsqrt log : ℚ → ℚ)
    (optStep : MLPParams → ℚ → MLPParams) (init : MLPParams) (rng : List Bool)
    (xTrainRaw : List (List (List ℕ))) (yTrain : List ℕ)
    (xValidRaw : List (List (List ℕ))) (yValid : List ℕ) (fs : FS) :
    (FS.pathExists fs (MODEL_FILE ++ ".index") = false →
      mainRun exp rsqrt log optStep init rng xTrainRaw yTrain xValidRaw yValid fs
          ⟨Procedure.inference, none, "", 0⟩ =
        MainOutcome.assertionError "model not found, train a model before calling inference.") ∧
    (FS.pathExists fs (MODEL_FILE ++ ".index") = true →
      mainRun exp rsqrt log optStep init rng xTrainRaw yTrain xValidRaw yValid fs
          ⟨Procedure.inference, none, "", 0⟩ =
        MainOutcome.typeError "stat: path should be string, bytes, os.PathLike or integer, not NoneType") := by
  constructor
  · intro h
    simp [mainRun, h]
  · intro h
    simp [mainRun, h]

/-- A concrete file system holding only the checkpoint index file. -/
def fsWithCheckpointIndex : FS := ⟨[], (MODEL_FILE ++ ".index") :: [], []⟩

theorem precondition_order_and_typeerror_witness :
    (FS.pathExists fsEmpty (MODEL_FILE ++ ".index") = false ∧
      mainRun id id id (fun p _ => p) demoParams [] [] [] [] [] fsEmpty
          ⟨Procedure.inference, none, "", 0⟩ =
        MainOutcome.assertionError "model not found, train a model before calling inference.") ∧
    (FS.pathExists fsWithCheckpointIndex (MODEL_FILE ++ ".index") = true ∧
      mainRun id id id (fun p _ => p) demoParams [] [] [] [] [] fsWithCheckpointIndex
          ⟨Procedure.inference, none, "", 0⟩ =
        MainOutcome.typeError "stat: path should be string, bytes, os.PathLike or integer, not NoneType") :=
  ⟨⟨rfl, (precondition_order_and_typeerror id id id (fun p _ => p) demoParams [] [] [] [] []
      fsEmpty).1 rfl⟩,
   ⟨by decide, (precondition_order_and_typeerror id id id (fun p _ => p) demoParams [] [] [] [] []
      fsWithCheckpointIndex).2 (by decide)⟩⟩

/-- Claim C3: after the final epoch, training persists the final model state
at the fixed well-known path: the checkpoint index file then exists, and
loading the checkpoint into a freshly constructed model container succeeds
(returns the trained state rather than failing), shadowing any checkpoint
previously stored there. -/
theorem train_persists_and_loads (exp rsqrt log : ℚ → ℚ)
    (optStep : MLPParams → ℚ → MLPParams) (init : MLPParams) (rng0 : List Bool)
    (xTrainRaw : List (List (List ℕ))) (yTrain : List ℕ)
    (xValidRaw : List (List (List ℕ))) (yValid : List ℕ) (fs : FS) :
    FS.pathExists
        (train exp rsqrt log optStep init rng0 xTrainRaw yTrain xValidRaw yValid fs).1
        (MODEL_FILE ++ ".index") = true ∧
    load_weights
        (train exp rsqrt log optStep init rng0 xTrainRaw yTrain xValidRaw yValid fs).1
        MODEL_FILE =
      some (train exp rsqrt log optStep init rng0 xTrainRaw yTrain xValidRaw yValid fs).2.params := by
  constructor
  · simp [train, FS.pathExists, save_weights]
  · simp [train, load_weights, save_weights]

/-- Folding the validation-phase body over any list of batches leaves the
model state, the random stream and the train-phase metric accumulators
untouched: each iteration runs the forward pass in inference mode and
applies no optimization step. -/
theorem validFold_frame (exp rsqrt log : ℚ → ℚ) :
    ∀ (validDs : List Batch) (s : TrainState),
      (validDs.foldl (validBatchStep exp rsqrt log) s).params = s.params ∧
      (validDs.foldl (validBatchStep exp rsqrt log) s).rng = s.rng ∧
      (validDs.foldl (validBatchStep exp rsqrt log) s).train_loss = s.train_loss ∧
      (validDs.foldl (validBatchStep exp rsqrt log) s).train_accuracy = s.train_accuracy
  | [], _ => ⟨rfl, rfl, rfl, rfl⟩
  | b :: bs, s => validFold_frame exp rsqrt log bs (validBatchStep exp rsqrt log s b)

/-- Claim C4: during every epoch the validation phase processes each batch
with the forward pass in inference mode and applies no optimization step, so
it changes no model parameter (and no running statistic): the parameters at
the end of an epoch are exactly the parameters at the end of that epoch's
train phase, and the validation fold preserves model state, random stream
and train metrics from any starting state. -/
theorem validation_phase_frame (exp rsqrt log : ℚ → ℚ)
    (optStep : MLPParams → ℚ → MLPParams) (trainDs validDs : List Batch)
    (s sv : TrainState) :
    ((validDs.foldl (validBatchStep exp rsqrt log) sv).params = sv.params ∧
     (validDs.foldl (validBatchStep exp rsqrt log) sv).rng = sv.rng ∧
     (validDs.foldl (validBatchStep exp rsqrt log) sv).train_loss = sv.train_loss ∧
     (validDs.foldl (validBatchStep exp rsqrt log) sv).train_accuracy = sv.train_accuracy) ∧
    (epochStep exp rsqrt log optStep trainDs validDs s).params =
      (trainDs.foldl (trainBatchStep exp rsqrt log optStep)
        { s with train_loss := MeanMetric.resetStates,
                 train_accuracy := AccuracyMetric.resetStates }).params := by
  refine ⟨validFold_frame exp rsqrt log validDs sv, ?_⟩
  unfold epochStep
  exact (validFold_frame exp rsqrt log validDs _).1

/-- The train-phase loop body never reads and never writes the
validation-phase metric accumulators: they commute with it as unchanged
record fields. -/
theorem trainFold_test_frame (exp rsqrt log : ℚ → ℚ)
    (optStep : MLPParams → ℚ → MLPParams) :
    ∀ (l : List Batch) (s : TrainState) (c : MeanMetric) (d : AccuracyMetric),
      l.foldl (trainBatchStep exp rsqrt log optStep)
          { s with test_loss := c, test_accuracy := d } =
        { l.foldl (trainBatchStep exp rsqrt log optStep) s with
          test_loss := c, test_accuracy := d }
  | [], _, _, _ => rfl
  | b :: bs, s, c, d =>
    trainFold_test_frame exp rsqrt log optStep bs
      (trainBatchStep exp rsqrt log optStep s b) c d

/-- Replace all four metric accumulators of a loop state at once. -/
def withMetrics (s : TrainState) (a : MeanMetric) (b : AccuracyMetric)
    (c : MeanMetric) (d : AccuracyMetric) : TrainState :=
  ⟨s.params, s.rng, a, b, c, d⟩

/-- Claim C5: at the start of every epoch's train phase, and again at the
start of its validation phase, the corresponding loss and accuracy
accumulators are reset to their identity values (zero total / zero count)
before any batch of that phase is accumulated — hence an epoch's outcome is
independent of whatever the four accumulators held beforehand, and an epoch
over empty phases leaves every accumulator exactly at the identity. -/
theorem metrics_reset_at_phase_start (exp rsqrt log : ℚ → ℚ)
    (optStep : MLPParams → ℚ → MLPParams) (trainDs validDs : List Batch)
    (s : TrainState) (a : MeanMetric) (b : AccuracyMetric)
    (c : MeanMetric) (d : AccuracyMetric) :
    epochStep exp rsqrt log optStep trainDs validDs (withMetrics s a b c d) =
      epochStep exp rsqrt log optStep trainDs validDs s ∧
    epochStep exp rsqrt log optStep [] [] s =
      withMetrics s ⟨0, 0⟩ ⟨0, 0⟩ ⟨0, 0⟩ ⟨0, 0⟩ := by
  constructor
  · show List.foldl _ _ validDs = List.foldl _ _ validDs
    apply congrArg (fun t => List.foldl (validBatchStep exp rsqrt log) t validDs)
    have h := trainFold_test_frame exp rsqrt log optStep trainDs
      { s with train_loss := MeanMetric.resetStates,
               train_accuracy := AccuracyMetric.resetStates } c d
    have h2 := congrArg
      (fun t : TrainState =>
        { t with test_loss := MeanMetric.resetStates,
                 test_accuracy := AccuracyMetric.resetStates }) h
    exact h2.trans rfl
  · rfl

/-- Batching never reorders or drops samples: concatenating the chunks in
order gives back the original list. -/
theorem batchList_flatten (k : ℕ) :
    ∀ (l : List α), (batchList k l).flatten = l
  | [] => by simp [batchList]
  | x :: xs => by
    have ih := batchList_flatten k (xs.drop (k - 1))
    simp [batchList, ih]
termination_by l => l.length
decreasing_by simp; omega

/-- The number of chunks produced by batching is the ceiling of the sample
count divided by the batch size. -/
theorem batchList_length (k : ℕ) (hk : 0 < k) :
    ∀ (l : List α), (batchList k l).length = (l.length + (k - 1)) / k
  | [] => by
    simp [batchList]
    exact (Nat.div_eq_of_lt (by omega)).symm
  | x :: xs => by
    have ih := batchList_length k hk (xs.drop (k - 1))
    simp only [batchList, List.length_cons, List.length_drop] at ih ⊢
    rw [ih]
    rcases le_or_lt (k - 1) xs.length with h | h
    · have h1 : xs.length - (k - 1) + (k - 1) = xs.length := by omega
      have h2 : xs.length + 1 + (k - 1) = xs.length + k := by omega
      rw [h1, h2, Nat.add_div_right _ hk]
    · have h1 : xs.length - (k - 1) = 0 := by omega
      have h2 : xs.length + 1 + (k - 1) = xs.length + k := by omega
      rw [h1, h2, Nat.add_div_right _ hk, Nat.zero_add,
          Nat.div_eq_of_lt (by omega), Nat.div_eq_of_lt (by omega)]
termination_by l => l.length
decreasing_by simp; omega

/-- Each training-phase iteration accumulates exactly one loss value, so the
mean-loss accumulator counts the number of batches processed. -/
theorem trainFold_count (exp rsqrt log : ℚ → ℚ)
    (optStep : MLPParams → ℚ → MLPParams) :
    ∀ (l : List Batch) (s : TrainState),
      (l.foldl (trainBatchStep exp rsqrt log optStep) s).train_loss.count =
        s.train_loss.count + l.length
  | [], s => rfl
  | b :: bs, s => by
    have ih := trainFold_count exp rsqrt log optStep bs
      (trainBatchStep exp rsqrt log optStep s b)
    rw [List.foldl_cons, ih]
    simp only [trainBatchStep, MeanMetric.update, List.length_cons]
    omega

/-- Re-zipping the two stacked arrays of each batch recovers the underlying
chunks of paired samples. -/
theorem rezip_unzip_flatten {β γ : Type _} (l : List (List (β × γ))) :
    (l.map (fun c => (c.unzip.1).zip c.unzip.2)).flatten = l.flatten := by
  simp only [List.zip_unzip]
  rw [List.map_id']

/-- Claim C6: with a training split of 60,000 samples and batch size 32,
batching yields exactly ceil(60000/32) = 1875 batches, grouped in original
order (re-zipping and flattening the batches restores the sample sequence),
and every epoch of the training loop processes exactly those 1875 batches:
at the end of the epoch the train-phase loss accumulator has counted 1875
updates, one per batch. -/
theorem epoch_processes_1875_batches (exp rsqrt log : ℚ → ℚ)
    (optStep : MLPParams → ℚ → MLPParams) (x : List Vec) (y : List ℕ)
    (validDs : List Batch) (s : TrainState)
    (hx : x.length = 60000) (hy : y.length = 60000) :
    (makeDataset x y).length = 1875 ∧
    ((makeDataset x y).map (fun b => b.1.zip b.2)).flatten = x.zip y ∧
    (epochStep exp rsqrt log optStep (makeDataset x y) validDs s).train_loss.count = 1875 := by
  have hzip : (x.zip y).length = 60000 := by
    simp [List.length_zip, hx, hy]
  have hlen : (makeDataset x y).length = 1875 := by
    simp only [makeDataset, List.length_map]
    rw [batchList_length BATCH_SIZE (by decide), hzip]
    rfl
  refine ⟨hlen, ?_, ?_⟩
  · rw [show makeDataset x y =
        (batchList BATCH_SIZE (x.zip y)).map (fun c => c.unzip) from rfl,
      List.map_map]
    exact (rezip_unzip_flatten _).trans (batchList_flatten BATCH_SIZE (x.zip y))
  · have hv := (validFold_frame exp rsqrt log validDs
      { (makeDataset x y).foldl (trainBatchStep exp rsqrt log optStep)
          { s with train_loss := MeanMetric.resetStates,
                   train_accuracy := AccuracyMetric.resetStates } with
        test_loss := MeanMetric.resetStates,
        test_accuracy := AccuracyMetric.resetStates }).2.2.1
    have hc := trainFold_count exp rsqrt log optStep (makeDataset x y)
      { s with train_loss := MeanMetric.resetStates,
               train_accuracy := AccuracyMetric.resetStates }
    calc (epochStep exp rsqrt log optStep (makeDataset x y) validDs s).train_loss.count
        = ((makeDataset x y).foldl (trainBatchStep exp rsqrt log optStep)
            { s with train_loss := MeanMetric.resetStates,
                     train_accuracy := AccuracyMetric.resetStates }).train_loss.count :=
          congrArg MeanMetric.count hv
      _ = 1875 := by
          rw [hc, hlen]
          simp [MeanMetric.resetStates]

/-- A concrete loop state built from the demo model. -/
def demoState : TrainState :=
  ⟨demoParams, [], ⟨0, 0⟩, ⟨0, 0⟩, ⟨0, 0⟩, ⟨0, 0⟩⟩

theorem epoch_processes_1875_batches_witness :
    (List.replicate 60000 ([] : Vec)).length = 60000 ∧
    (List.replicate 60000 (0 : ℕ)).length = 60000 ∧
    ((makeDataset (List.replicate 60000 ([] : Vec)) (List.replicate 60000 0)).length = 1875 ∧
     ((makeDataset (List.replicate 60000 ([] : Vec)) (List.replicate 60000 0)).map
        (fun b => b.1.zip b.2)).flatten =
       (List.replicate 60000 ([] : Vec)).zip (List.replicate 60000 0) ∧
     (epochStep id id id (fun p _ => p)
        (makeDataset (List.replicate 60000 ([] : Vec)) (List.replicate 60000 0))
        [] demoState).train_loss.count = 1875) :=
  ⟨List.length_replicate 60000 [], List.length_replicate 60000 0,
   epoch_processes_1875_batches id id id (fun p _ => p) _ _ [] demoState
     (List.length_replicate 60000 []) (List.length_replicate 60000 0)⟩

/-- A non-empty list no longer than the chunk size forms a single chunk. -/
theorem batchList_single (k : ℕ) (x : α) (xs : List α)
    (h : xs.length ≤ k - 1) :
    batchList k (x :: xs) = (x :: xs) :: [] := by
  rw [batchList, List.take_of_length_le h, List.drop_eq_nil_of_le h, batchList]

/-- Claim C7: preprocessing applies the normalization scale factor exactly
once per raw pixel value — the training path and the inference path both
produce precisely `pixelScale` mapped once over the raw pixels, never a
re-scaled value — and `pixelScale` maps the integer range 0 to 255 onto the
interval 0 to 1, sending 0 to 0 and 255 to 1. -/
theorem preprocess_scale_once (img : List (List ℕ)) (pixels : List ℕ) (v : ℕ)
    (hp : pixels.length = 784) (hv : v ≤ 255) :
    trainPreprocess (img :: []) = (img.flatten.map pixelScale) :: [] ∧
    inferPreprocess pixels = some ((pixels.map pixelScale) :: []) ∧
    pixelScale v = (v : ℚ) / 255 ∧
    0 ≤ pixelScale v ∧ pixelScale v ≤ 1 ∧
    pixelScale 0 = 0 ∧ pixelScale 255 = 1 := by
  refine ⟨rfl, ?_, rfl, ?_, ?_, ?_, ?_⟩
  · match pixels, hp with
    | p :: ps, hp =>
      have hlen : ps.length ≤ 784 - 1 := by
        simp at hp
        omega
      simp [inferPreprocess, reshape2d, hp, batchList_single 784 p ps hlen]
  · exact div_nonneg (Nat.cast_nonneg v) (by norm_num)
  · rw [pixelScale, div_le_one (by norm_num)]
    exact_mod_cast hv
  · norm_num [pixelScale]
  · norm_num [pixelScale]

theorem preprocess_scale_once_witness :
    (List.replicate 784 (0 : ℕ)).length = 784 ∧ 255 ≤ 255 ∧
    (trainPreprocess (((List.replicate 28 (List.replicate 28 (7 : ℕ)))) :: []) =
        ((List.replicate 28 (List.replicate 28 (7 : ℕ))).flatten.map pixelScale) :: [] ∧
     inferPreprocess (List.replicate 784 0) =
        some (((List.replicate 784 (0 : ℕ)).map pixelScale) :: []) ∧
     pixelScale 255 = (255 : ℚ) / 255 ∧
     0 ≤ pixelScale 255 ∧ pixelScale 255 ≤ 1 ∧
     pixelScale 0 = 0 ∧ pixelScale 255 = 1) :=
  ⟨List.length_replicate 784 0, le_refl 255,
   preprocess_scale_once (List.replicate 28 (List.replicate 28 7))
     (List.replicate 784 0) 255 (List.length_replicate 784 0) (le_refl 255)⟩

/-- The claim that the flattened input width is 728 fails on the code: the
inference path reshapes to width 784, so a 728-pixel buffer is rejected by
the reshape. -/
theorem input_width_728_refuted :
    inferPreprocess (List.replicate 728 0) = none := by
  rw [inferPreprocess, reshape2d, List.length_replicate]
  norm_num

/-- Claim C8 (amended): in the default configuration the flattened input
width expected by the model container — the length of the vector each input
image is reshaped into, in the training path and in the inference path — is
784 elements (a 28 by 28 pixel grid), not 728. -/
theorem input_width_784 (pixels : List ℕ) (img : List (List ℕ))
    (hp : pixels.length = 784) (h28 : img.length = 28)
    (hrow : ∀ r ∈ img, r.length = 28) :
    (∃ w, inferPreprocess pixels = some (w :: []) ∧ w.length = 784) ∧
    ((trainPreprocess (img :: [])).headI).length = 784 := by
  constructor
  · refine ⟨pixels.map pixelScale, ?_, by simp [hp]⟩
    match pixels, hp with
    | p :: ps, hp =>
      have hlen : ps.length ≤ 784 - 1 := by
        simp at hp
        omega
      simp [inferPreprocess, reshape2d, hp, batchList_single 784 p ps hlen]
  · have hmap : img.map List.length = List.replicate 28 28 := by
      rw [List.eq_replicate_iff]
      refine ⟨by simp [h28], ?_⟩
      intro b hb
      obtain ⟨r, hr, hrb⟩ := List.mem_map.mp hb
      exact hrb ▸ hrow r hr
    show (img.flatten.map pixelScale).length = 784
    rw [List.length_map, List.length_flatten, hmap, List.sum_const_nat]

theorem input_width_784_witness :
    (List.replicate 784 (0 : ℕ)).length = 784 ∧
    (List.replicate 28 (List.replicate 28 (0 : ℕ))).length = 28 ∧
    (∀ r ∈ List.replicate 28 (List.replicate 28 (0 : ℕ)), r.length = 28) ∧
    ((∃ w, inferPreprocess (List.replicate 784 0) = some (w :: []) ∧ w.length = 784) ∧
     ((trainPreprocess ((List.replicate 28 (List.replicate 28 (0 : ℕ))) :: [])).headI).length = 784) :=
  ⟨List.length_replicate 784 0, List.length_replicate 28 _,
   fun r hr => by rw [(List.eq_of_mem_replicate hr : r = List.replicate 28 0)]; exact List.length_replicate 28 0,
   input_width_784 (List.replicate 784 0) (List.replicate 28 (List.replicate 28 0))
     (List.length_replicate 784 0) (List.length_replicate 28 _)
     (fun r hr => by rw [(List.eq_of_mem_replicate hr : r = List.replicate 28 0)]; exact List.length_replicate 28 0)⟩

/-- Claim C9: calling the model's forward operation without an explicit mode
flag is the same as calling it with `training=True` (the flag defaults to
training mode), so the training-mode side effects are active by default:
on a concrete input the defaulted call updates the batch-normalization
running statistics (the returned model state differs from the input state),
while an explicit `training=False` call leaves the model state unchanged. -/
theorem call_defaults_to_training :
    (∀ (exp rsqrt : ℚ → ℚ) (p : MLPParams) (rng : List Bool) (x : List Vec),
        MLP.call exp rsqrt p rng x = MLP.call exp rsqrt p rng x true) ∧
    (MLP.call id id demoParams [] (((1 : ℚ) :: []) :: [])).2.1 ≠ demoParams ∧
    (MLP.call id id demoParams [] (((1 : ℚ) :: []) :: []) false).2.1 = demoParams := by
  refine ⟨fun _ _ _ _ _ => rfl, ?_, rfl⟩
  intro h
  have h2 := congrArg (fun p => p.bn1.movingMean) h
  simp [MLP.call, encoderForward, decoderForward, bnTrainForward, featureMean,
    featureVar, demoParams, denseApply, dot, vAdd, vScale, vMul, vSub,
    bnMomentum, bnNormalize, reluVec] at h2
  norm_num at h2
